import Mathlib

/-!
Verification of the 49er sailing-platform TypeScript frontend
(domain services, repositories and application hooks).

The embedding models:
* the DTO and wire-response record types (`CreateSessionDTO`,
  `UpdateSessionDTO`, `CreateEquipmentSettingsDTO`, `SessionResponse`,
  `EquipmentResponse`),
* the domain entities `Session` and `Equipment` with their derived getters,
* the validation logic of `SessionService` (create/update/settings paths),
  where a service method is a function from its input to
  `Except String SessionRepoCall`: `error msg` is a synchronously thrown
  validation error and `ok c` is the repository call the method delegates to,
* the repository `getById` methods as functions of the backend's answer
  (`Except ApiError resp`), mirroring the try/catch in the source,
* the client-side list patch performed by the `useEquipment` hook's
  retire/reactivate actions.

JavaScript numbers are modelled as rationals (`ℚ`): every numeric literal
and comparison appearing in the claims is exact in double precision, so the
verdicts coincide.
-/

deriving instance DecidableEq for Except

namespace Sailing

/-- Wave type enum, from `common.types.ts`: 'Flat' | 'Choppy' | 'Medium' | 'Large'. -/
inductive WaveType where
  | Flat
  | Choppy
  | Medium
  | Large
deriving DecidableEq, Repr

/-- Equipment type enum, from `common.types.ts`. -/
inductive EquipmentType where
  | Mainsail
  | Jib
  | Gennaker
  | Mast
  | Boom
  | Rudder
  | Centerboard
  | Other
deriving DecidableEq, Repr

/-- Tension level enum, from `common.types.ts`: 'Loose' | 'Medium' | 'Tight'. -/
inductive TensionLevel where
  | Loose
  | Medium
  | Tight
deriving DecidableEq, Repr

/-- `ApiError` from `common.types.ts`: message, optional detail, optional HTTP status. -/
structure ApiError where
  message : String
  detail : Option String
  status : Option Nat
deriving DecidableEq, Repr

/-- `CreateSessionDTO` from `application/dto/SessionDTO.ts` (snake_case wire payload). -/
structure CreateSessionDTO where
  date : String
  location : String
  wind_speed_min : ℚ
  wind_speed_max : ℚ
  wave_type : WaveType
  wave_direction : String
  hours_on_water : ℚ
  performance_rating : ℚ
  notes : Option String
  equipment_ids : Option (List String)
deriving DecidableEq, Repr

/-- `UpdateSessionDTO` from `application/dto/SessionDTO.ts`: every field optional. -/
structure UpdateSessionDTO where
  date : Option String
  location : Option String
  wind_speed_min : Option ℚ
  wind_speed_max : Option ℚ
  wave_type : Option WaveType
  wave_direction : Option String
  hours_on_water : Option ℚ
  performance_rating : Option ℚ
  notes : Option String
  equipment_ids : Option (List String)
deriving DecidableEq, Repr

/-- The settings payload handled by `SessionService.createEquipmentSettings`
(the source types it `any` and reads the keys below; fields are optional,
matching the `!== undefined` guards). -/
structure CreateEquipmentSettingsDTO where
  forestay_tension : Option ℚ
  shroud_tension : Option ℚ
  mast_rake : Option ℚ
  main_tension : Option ℚ
  cap_tension : Option ℚ
  cap_hole : Option ℚ
  lowers_scale : Option ℚ
  mains_scale : Option ℚ
  pre_bend : Option ℚ
  jib_halyard_tension : Option TensionLevel
  cunningham : Option ℚ
  outhaul : Option ℚ
  vang : Option ℚ
deriving DecidableEq, Repr

/-- `UpdateEquipmentDTO` from `application/dto/EquipmentDTO.ts`: every field optional. -/
structure UpdateEquipmentDTO where
  name : Option String
  type : Option EquipmentType
  manufacturer : Option String
  model : Option String
  purchase_date : Option String
  notes : Option String
deriving DecidableEq, Repr

/-- The `Session` entity from `domain/entities/Session.ts` (camelCase fields). -/
structure Session where
  id : String
  date : String
  location : String
  windSpeedMin : ℚ
  windSpeedMax : ℚ
  waveType : WaveType
  waveDirection : String
  hoursOnWater : ℚ
  performanceRating : ℚ
  notes : Option String
  equipmentIds : List String
  createdBy : String
  createdAt : String
  updatedAt : String
deriving DecidableEq, Repr

/-- `Session.averageWindSpeed` getter: `(windSpeedMin + windSpeedMax) / 2`. -/
def Session.averageWindSpeed (s : Session) : ℚ :=
  (s.windSpeedMin + s.windSpeedMax) / 2

/-- `Session.isHeavyWeather` getter:
`averageWindSpeed > 20 || waveType === 'Large' || waveType === 'Medium'`. -/
def Session.isHeavyWeather (s : Session) : Bool :=
  decide (s.averageWindSpeed > 20) || decide (s.waveType = WaveType.Large) ||
    decide (s.waveType = WaveType.Medium)

/-- `Session.isLightWeather` getter:
`averageWindSpeed < 8 && (waveType === 'Flat' || waveType === 'Choppy')`. -/
def Session.isLightWeather (s : Session) : Bool :=
  decide (s.averageWindSpeed < 8) &&
    (decide (s.waveType = WaveType.Flat) || decide (s.waveType = WaveType.Choppy))

/-- The `Equipment` entity from `domain/entities/Equipment.ts`. -/
structure Equipment where
  id : String
  name : String
  type : EquipmentType
  manufacturer : String
  model : String
  purchaseDate : Option String
  notes : Option String
  active : Bool
  wear : ℚ
  ownerId : String
  createdAt : String
  updatedAt : String
  ageInDays : Option ℚ
  needsReplacement : Option Bool
deriving DecidableEq, Repr

/-- `SessionResponse` wire type from `common.types.ts` (snake_case JSON). -/
structure SessionResponse where
  id : String
  date : String
  location : String
  wind_speed_min : ℚ
  wind_speed_max : ℚ
  wave_type : WaveType
  wave_direction : String
  hours_on_water : ℚ
  performance_rating : ℚ
  notes : Option String
  created_by : String
  created_at : String
  updated_at : String
deriving DecidableEq, Repr

/-- `EquipmentResponse` wire type from `common.types.ts` (snake_case JSON). -/
structure EquipmentResponse where
  id : String
  name : String
  type : EquipmentType
  manufacturer : String
  model : String
  purchase_date : Option String
  notes : Option String
  active : Bool
  wear : ℚ
  owner_id : String
  created_at : String
  updated_at : String
  age_in_days : Option ℚ
  needs_replacement : Option Bool
deriving DecidableEq, Repr

/-- The repository calls a `SessionService` mutation method can delegate to
(a successful service call issues exactly one of these). -/
inductive SessionRepoCall where
  | create (data : CreateSessionDTO)
  | update (id : String) (data : UpdateSessionDTO)
  | createSettings (sessionId : String) (data : CreateEquipmentSettingsDTO)
deriving DecidableEq, Repr

/-- JavaScript `String.prototype.trim` whitespace (the characters relevant to
form input). -/
def jsWhitespaceChar (c : Char) : Bool :=
  c = ' ' || c = '\t' || c = '\n' || c = '\r' || c = '\x0b' || c = '\x0c'

/-- JavaScript `String.prototype.trim`: strip leading and trailing whitespace. -/
def jsTrim (s : String) : String :=
  String.mk (((s.data.dropWhile jsWhitespaceChar).reverse.dropWhile jsWhitespaceChar).reverse)

/-- The validation block of `SessionService.createSession`, in source order:
location, negative wind speeds, wind ordering, hours on water, performance
rating.  Returns the message of the first failing check, `none` if all pass. -/
def validateCreateSession (data : CreateSessionDTO) : Option String :=
  if (jsTrim data.location).length = 0 then
    some "Location is required"
  else if data.wind_speed_min < 0 ∨ data.wind_speed_max < 0 then
    some "Wind speeds cannot be negative"
  else if data.wind_speed_min > data.wind_speed_max then
    some "Minimum wind speed cannot exceed maximum"
  else if data.hours_on_water ≤ 0 ∨ data.hours_on_water > 12 then
    some "Hours on water must be between 0 and 12"
  else if data.performance_rating < 1 ∨ data.performance_rating > 5 then
    some "Performance rating must be between 1 and 5"
  else
    none

/-- `SessionService.createSession`: validate, then delegate to
`repository.create`.  `error msg` models a synchronously thrown validation
error (no repository call); `ok c` models delegating the call `c`. -/
def SessionService.createSession (data : CreateSessionDTO) :
    Except String SessionRepoCall :=
  match validateCreateSession data with
  | some msg => Except.error msg
  | none => Except.ok (SessionRepoCall.create data)

/-- The wind-ordering check of `SessionService.updateSession`: only performed
when both `wind_speed_min` and `wind_speed_max` are present. -/
def checkUpdateWind : Option ℚ → Option ℚ → Option String
  | some mn, some mx =>
      if mn > mx then some "Minimum wind speed cannot exceed maximum" else none
  | _, _ => none

/-- The hours check of `SessionService.updateSession`: only performed when
`hours_on_water` is present. -/
def checkUpdateHours : Option ℚ → Option String
  | some h => if h ≤ 0 ∨ h > 12 then some "Hours on water must be between 0 and 12" else none
  | none => none

/-- The rating check of `SessionService.updateSession`: only performed when
`performance_rating` is present. -/
def checkUpdateRating : Option ℚ → Option String
  | some r => if r < 1 ∨ r > 5 then some "Performance rating must be between 1 and 5" else none
  | none => none

/-- The validation block of `SessionService.updateSession`, in source order. -/
def validateUpdateSession (data : UpdateSessionDTO) : Option String :=
  match checkUpdateWind data.wind_speed_min data.wind_speed_max with
  | some msg => some msg
  | none =>
    match checkUpdateHours data.hours_on_water with
    | some msg => some msg
    | none => checkUpdateRating data.performance_rating

/-- `SessionService.updateSession`: validate the partial payload, then
delegate to `repository.update`. -/
def SessionService.updateSession (id : String) (data : UpdateSessionDTO) :
    Except String SessionRepoCall :=
  match validateUpdateSession data with
  | some msg => Except.error msg
  | none => Except.ok (SessionRepoCall.update id data)

/-- One iteration of the tension loop in
`SessionService.createEquipmentSettings`: a present value outside `[0,10]`
yields the error message built from the field name. -/
def checkTension (fieldName : String) : Option ℚ → Option String
  | some x =>
      if x < 0 ∨ x > 10 then some (fieldName ++ " must be between 0 and 10") else none
  | none => none

/-- The mast-rake check of `SessionService.createEquipmentSettings`. -/
def checkMastRake : Option ℚ → Option String
  | some x =>
      if x < -5 ∨ x > 30 then some "Mast rake must be between -5 and 30 degrees" else none
  | none => none

/-- Returns the first `some` in the list (the first thrown error), `none` if
every check passed. -/
def firstErr : List (Option String) → Option String
  | [] => none
  | none :: rest => firstErr rest
  | some msg :: _ => some msg

/-- The validation block of `SessionService.createEquipmentSettings`: the
nine tension fields in the source's loop order, then `mast_rake`. -/
def validateSettings (data : CreateEquipmentSettingsDTO) : Option String :=
  firstErr
    [ checkTension "forestay_tension" data.forestay_tension,
      checkTension "shroud_tension" data.shroud_tension,
      checkTension "main_tension" data.main_tension,
      checkTension "cap_tension" data.cap_tension,
      checkTension "lowers_scale" data.lowers_scale,
      checkTension "mains_scale" data.mains_scale,
      checkTension "cunningham" data.cunningham,
      checkTension "outhaul" data.outhaul,
      checkTension "vang" data.vang,
      checkMastRake data.mast_rake ]

/-- `SessionService.createEquipmentSettings`: validate, then delegate to
`repository.createSettings`. -/
def SessionService.createEquipmentSettings (sessionId : String)
    (data : CreateEquipmentSettingsDTO) : Except String SessionRepoCall :=
  match validateSettings data with
  | some msg => Except.error msg
  | none => Except.ok (SessionRepoCall.createSettings sessionId data)

/-- The condition argument of `SessionService.getSessionsByCondition`
('heavy' | 'light' | 'medium'). -/
inductive Condition where
  | heavy
  | light
  | medium
deriving DecidableEq, Repr

/-- `SessionService.getSessionsByCondition`: filter by the weather predicates;
'medium' keeps the sessions that are neither heavy nor light. -/
def SessionService.getSessionsByCondition (sessions : List Session)
    (condition : Condition) : List Session :=
  match condition with
  | Condition.heavy => sessions.filter (fun s => s.isHeavyWeather)
  | Condition.light => sessions.filter (fun s => s.isLightWeather)
  | Condition.medium => sessions.filter (fun s => !s.isHeavyWeather && !s.isLightWeather)

/-- `SessionService.calculateAveragePerformance`: `0` on an empty list, else
the reduce-sum of the ratings divided by the length. -/
def SessionService.calculateAveragePerformance (sessions : List Session) : ℚ :=
  if sessions.length = 0 then 0
  else (sessions.foldl (fun sum s => sum + s.performanceRating) 0) / sessions.length

/-- `SessionService.calculateTotalHours`: the reduce-sum of `hoursOnWater`. -/
def SessionService.calculateTotalHours (sessions : List Session) : ℚ :=
  sessions.foldl (fun sum s => sum + s.hoursOnWater) 0

/-- `SessionRepository.mapToEntity`: snake_case wire response to `Session`;
`equipmentIds` is intentionally set to `[]` (populated separately). -/
def SessionRepository.mapToEntity (data : SessionResponse) : Session :=
  { id := data.id
    date := data.date
    location := data.location
    windSpeedMin := data.wind_speed_min
    windSpeedMax := data.wind_speed_max
    waveType := data.wave_type
    waveDirection := data.wave_direction
    hoursOnWater := data.hours_on_water
    performanceRating := data.performance_rating
    notes := data.notes
    equipmentIds := []
    createdBy := data.created_by
    createdAt := data.created_at
    updatedAt := data.updated_at }

/-- `SessionRepository.getById` as a function of the backend's answer: the
source wraps the GET in try/catch and returns `null` on any caught error. -/
def SessionRepository.getById (backend : Except ApiError SessionResponse) :
    Option Session :=
  match backend with
  | Except.ok resp => some (SessionRepository.mapToEntity resp)
  | Except.error _ => none

/-- `SessionService.getSessionById`: delegates to the repository unchanged. -/
def SessionService.getSessionById (backend : Except ApiError SessionResponse) :
    Option Session :=
  SessionRepository.getById backend

/-- `EquipmentRepository.mapToEntity`: snake_case wire response to `Equipment`. -/
def EquipmentRepository.mapToEntity (data : EquipmentResponse) : Equipment :=
  { id := data.id
    name := data.name
    type := data.type
    manufacturer := data.manufacturer
    model := data.model
    purchaseDate := data.purchase_date
    notes := data.notes
    active := data.active
    wear := data.wear
    ownerId := data.owner_id
    createdAt := data.created_at
    updatedAt := data.updated_at
    ageInDays := data.age_in_days
    needsReplacement := data.needs_replacement }

/-- `EquipmentRepository.getById`: try/catch returning `null` on any caught
error, like the session repository. -/
def EquipmentRepository.getById (backend : Except ApiError EquipmentResponse) :
    Option Equipment :=
  match backend with
  | Except.ok resp => some (EquipmentRepository.mapToEntity resp)
  | Except.error _ => none

/-- Modelled from the spec: repositories "map wire-format JSON (snake_case,
flat) to entity objects (camelCase-accessor instances) and back for write
payloads".  No explicit entity-to-update-payload mapper for sessions exists
under the sources; following the spec's words, each entity field is written
back to its snake_case payload key (`id`, `createdBy`, `createdAt`,
`updatedAt` have no key in `UpdateSessionDTO` and are intentionally omitted). -/
def Session.toUpdatePayload (s : Session) : UpdateSessionDTO :=
  { date := some s.date
    location := some s.location
    wind_speed_min := some s.windSpeedMin
    wind_speed_max := some s.windSpeedMax
    wave_type := some s.waveType
    wave_direction := some s.waveDirection
    hours_on_water := some s.hoursOnWater
    performance_rating := some s.performanceRating
    notes := s.notes
    equipment_ids := some s.equipmentIds }

/-- Modelled from the spec: the equipment analogue of
`Session.toUpdatePayload` (`active`, `wear` and the server-derived fields
have no key in `UpdateEquipmentDTO` and are intentionally omitted). -/
def Equipment.toUpdatePayload (e : Equipment) : UpdateEquipmentDTO :=
  { name := some e.name
    type := some e.type
    manufacturer := some e.manufacturer
    model := some e.model
    purchase_date := e.purchaseDate
    notes := e.notes }

/-- The client-side list patch shared by the `useEquipment` hook's retire and
reactivate actions: `equipment.find(e => e.id === id)` locates the first
entry with the given id and its `active` field is overwritten in place. -/
def setActiveFirst (id : String) (b : Bool) : List Equipment → List Equipment
  | [] => []
  | e :: rest =>
      if e.id = id then { e with active := b } :: rest
      else e :: setActiveFirst id b rest

/-- The local-state effect of the hook's `retireEquipment` on the equipment
list (after the service call succeeds): first matching entry's `active`
becomes `false`. -/
def retireEquipmentLocal (equipment : List Equipment) (id : String) :
    List Equipment :=
  setActiveFirst id false equipment

/-- The local-state effect of the hook's `reactivateEquipment`: first
matching entry's `active` becomes `true`. -/
def reactivateEquipmentLocal (equipment : List Equipment) (id : String) :
    List Equipment :=
  setActiveFirst id true equipment

/-- A create payload that passes every check of `validateCreateSession`
(used as the base point of concrete evaluations). -/
def baseCreateDTO : CreateSessionDTO :=
  { date := "2024-05-01"
    location := "Aarhus"
    wind_speed_min := 8
    wind_speed_max := 15
    wave_type := WaveType.Choppy
    wave_direction := "N"
    hours_on_water := 2
    performance_rating := 3
    notes := none
    equipment_ids := none }

/-- A create payload with an empty location and inverted wind speeds. -/
def emptyLocationHighWind : CreateSessionDTO :=
  { baseCreateDTO with location := "", wind_speed_min := 20, wind_speed_max := 10 }

/-- A create payload with a valid location but inverted wind speeds. -/
def highWindCreate : CreateSessionDTO :=
  { baseCreateDTO with wind_speed_min := 20, wind_speed_max := 10 }

/-- The rational 5/2, built without division so the kernel can evaluate it. -/
def twoPointFive : ℚ := ⟨5, 2, by norm_num, by norm_num⟩

/-- A create payload whose performance rating is the non-integer 2.5. -/
def halfRatingCreate : CreateSessionDTO :=
  { baseCreateDTO with performance_rating := twoPointFive }

/-- An update payload carrying only a performance rating. -/
def onlyRatingUpdate (r : ℚ) : UpdateSessionDTO :=
  { date := none
    location := none
    wind_speed_min := none
    wind_speed_max := none
    wave_type := none
    wave_direction := none
    hours_on_water := none
    performance_rating := some r
    notes := none
    equipment_ids := none }

/-- An update payload carrying only an hours-on-water value. -/
def onlyHoursUpdate (q : ℚ) : UpdateSessionDTO :=
  { date := none
    location := none
    wind_speed_min := none
    wind_speed_max := none
    wave_type := none
    wave_direction := none
    hours_on_water := some q
    performance_rating := none
    notes := none
    equipment_ids := none }

/-- A sample session with the given performance rating (medium conditions). -/
def sampleSession (r : ℚ) : Session :=
  { id := "s"
    date := "2024-05-01"
    location := "Aarhus"
    windSpeedMin := 10
    windSpeedMax := 14
    waveType := WaveType.Choppy
    waveDirection := "N"
    hoursOnWater := 2
    performanceRating := r
    notes := none
    equipmentIds := []
    createdBy := "u"
    createdAt := ""
    updatedAt := ""
  }

/-- A sample active equipment entry with the given id. -/
def sampleEquipment (id : String) : Equipment :=
  { id := id
    name := "Mainsail A"
    type := EquipmentType.Mainsail
    manufacturer := "North"
    model := "M1"
    purchaseDate := none
    notes := none
    active := true
    wear := 0
    ownerId := "u"
    createdAt := ""
    updatedAt := ""
    ageInDays := none
    needsReplacement := none }

/-! ## Helper lemmas -/

/-- A create call succeeds exactly when validation passes, and then delegates
the unchanged payload to `repository.create`. -/
theorem createSession_ok_iff (d : CreateSessionDTO) (c : SessionRepoCall) :
    SessionService.createSession d = Except.ok c ↔
      validateCreateSession d = none ∧ c = SessionRepoCall.create d := by
  unfold SessionService.createSession
  cases hv : validateCreateSession d <;> simp [eq_comm]

/-- A create call throws exactly the message validation produces. -/
theorem createSession_error_iff (d : CreateSessionDTO) (msg : String) :
    SessionService.createSession d = Except.error msg ↔
      validateCreateSession d = some msg := by
  unfold SessionService.createSession
  cases hv : validateCreateSession d <;> simp

/-- Characterisation of a passing create validation, one conjunct per check
of the source, in source order. -/
theorem validateCreateSession_none_iff (d : CreateSessionDTO) :
    validateCreateSession d = none ↔
      ¬((jsTrim d.location).length = 0) ∧
      ¬(d.wind_speed_min < 0 ∨ d.wind_speed_max < 0) ∧
      ¬(d.wind_speed_min > d.wind_speed_max) ∧
      ¬(d.hours_on_water ≤ 0 ∨ d.hours_on_water > 12) ∧
      ¬(d.performance_rating < 1 ∨ d.performance_rating > 5) := by
  unfold validateCreateSession
  split_ifs with h1 h2 h3 h4 h5 <;> simp_all

/-- An update call succeeds exactly when validation of the partial payload
passes, and then delegates the unchanged payload to `repository.update`. -/
theorem updateSession_ok_iff (id : String) (u : UpdateSessionDTO) (c : SessionRepoCall) :
    SessionService.updateSession id u = Except.ok c ↔
      validateUpdateSession u = none ∧ c = SessionRepoCall.update id u := by
  unfold SessionService.updateSession
  cases hv : validateUpdateSession u <;> simp [eq_comm]

/-- An update call throws exactly the message validation produces. -/
theorem updateSession_error_iff (id : String) (u : UpdateSessionDTO) (msg : String) :
    SessionService.updateSession id u = Except.error msg ↔
      validateUpdateSession u = some msg := by
  unfold SessionService.updateSession
  cases hv : validateUpdateSession u <;> simp

/-- Update validation passes exactly when its three per-field checks pass. -/
theorem validateUpdateSession_none_iff (u : UpdateSessionDTO) :
    validateUpdateSession u = none ↔
      checkUpdateWind u.wind_speed_min u.wind_speed_max = none ∧
      checkUpdateHours u.hours_on_water = none ∧
      checkUpdateRating u.performance_rating = none := by
  unfold validateUpdateSession
  cases hw : checkUpdateWind u.wind_speed_min u.wind_speed_max <;>
    cases hh : checkUpdateHours u.hours_on_water <;>
      cases hr : checkUpdateRating u.performance_rating <;> simp

/-- A present hours value passes its update check exactly when it lies in
`(0, 12]`. -/
theorem checkUpdateHours_none_iff (q : ℚ) :
    checkUpdateHours (some q) = none ↔ 0 < q ∧ q ≤ 12 := by
  simp only [checkUpdateHours]
  split_ifs with h
  · simp only [Option.some_ne_none, false_iff]
    rintro ⟨hq1, hq2⟩
    rcases h with h | h <;> linarith
  · push_neg at h
    simpa using h

/-- A present rating passes its update check exactly when it lies in `[1, 5]`. -/
theorem checkUpdateRating_none_iff (r : ℚ) :
    checkUpdateRating (some r) = none ↔ 1 ≤ r ∧ r ≤ 5 := by
  simp only [checkUpdateRating]
  split_ifs with h
  · simp only [Option.some_ne_none, false_iff]
    rintro ⟨hr1, hr2⟩
    rcases h with h | h <;> linarith
  · push_neg at h
    simpa using h

/-- A settings-create call succeeds exactly when its validation passes. -/
theorem createEquipmentSettings_ok_iff (sid : String) (d : CreateEquipmentSettingsDTO) :
    SessionService.createEquipmentSettings sid d =
        Except.ok (SessionRepoCall.createSettings sid d) ↔
      validateSettings d = none := by
  unfold SessionService.createEquipmentSettings
  cases hv : validateSettings d <;> simp

/-- `firstErr` returns `none` exactly when every check in the list passed. -/
theorem firstErr_none_iff (l : List (Option String)) :
    firstErr l = none ↔ ∀ o ∈ l, o = none := by
  induction l with
  | nil => simp [firstErr]
  | cons o rest ih =>
    cases o with
    | none => simpa [firstErr] using ih
    | some msg => simp [firstErr]

/-- A tension check passes exactly when the field, if present, lies in `[0, 10]`. -/
theorem checkTension_none_iff (fieldName : String) (v : Option ℚ) :
    checkTension fieldName v = none ↔ ∀ x, v = some x → 0 ≤ x ∧ x ≤ 10 := by
  cases v with
  | none => simp [checkTension]
  | some x =>
    simp only [checkTension]
    split_ifs with h
    · simp only [Option.some_ne_none, false_iff]
      push_neg
      refine ⟨x, rfl, ?_⟩
      intro h0
      rcases h with h | h
      · exact absurd h (not_lt.mpr h0)
      · exact h
    · push_neg at h
      simp only [true_iff, Option.some.injEq]
      rintro y rfl
      exact h

/-- The mast-rake check passes exactly when the field, if present, lies in
`[-5, 30]`. -/
theorem checkMastRake_none_iff (v : Option ℚ) :
    checkMastRake v = none ↔ ∀ x, v = some x → -5 ≤ x ∧ x ≤ 30 := by
  cases v with
  | none => simp [checkMastRake]
  | some x =>
    simp only [checkMastRake]
    split_ifs with h
    · simp only [Option.some_ne_none, false_iff]
      push_neg
      refine ⟨x, rfl, ?_⟩
      intro h0
      rcases h with h | h
      · exact absurd h (not_lt.mpr h0)
      · exact h
    · push_neg at h
      simp only [true_iff, Option.some.injEq]
      rintro y rfl
      exact h

/-- The source's `reduce((sum, s) => sum + s.performanceRating, 0)` computes
the sum of the ratings. -/
theorem foldl_add_performanceRating (l : List Session) (a : ℚ) :
    l.foldl (fun sum s => sum + s.performanceRating) a =
      a + (l.map Session.performanceRating).sum := by
  induction l generalizing a with
  | nil => simp
  | cons s rest ih => simp [ih, add_assoc]

/-- The two weather predicates of `Session` are mutually exclusive. -/
theorem not_isHeavyWeather_and_isLightWeather (s : Session) :
    ¬(s.isHeavyWeather = true ∧ s.isLightWeather = true) := by
  unfold Session.isHeavyWeather Session.isLightWeather
  rintro ⟨hh, hl⟩
  simp only [Bool.or_eq_true, Bool.and_eq_true, decide_eq_true_eq] at hh hl
  obtain ⟨hl1, hl2⟩ := hl
  rcases hh with (hh | hh) | hh
  · linarith
  · rw [hh] at hl2
    rcases hl2 with h | h <;> exact WaveType.noConfusion h
  · rw [hh] at hl2
    rcases hl2 with h | h <;> exact WaveType.noConfusion h

/-- The hook's local patch leaves the entry ids of the equipment list
unchanged. -/
theorem setActiveFirst_map_id (id : String) (b : Bool) (l : List Equipment) :
    (setActiveFirst id b l).map Equipment.id = l.map Equipment.id := by
  induction l with
  | nil => rfl
  | cons e rest ih =>
    unfold setActiveFirst
    split_ifs with he
    · rfl
    · simpa using ih

/-- Pointwise description of the hook's local patch when entry ids are
distinct: the entry with the given id gets its `active` field overwritten and
every other entry is returned unchanged, at the same position. -/
theorem setActiveFirst_get? (id : String) (b : Bool) (l : List Equipment)
    (hnd : (l.map Equipment.id).Nodup) (i : ℕ) :
    (setActiveFirst id b l).get? i =
      (l.get? i).map (fun e => if e.id = id then { e with active := b } else e) := by
  induction l generalizing i with
  | nil => simp [setActiveFirst]
  | cons e rest ih =>
    simp only [List.map_cons, List.nodup_cons] at hnd
    obtain ⟨hni, hnd'⟩ := hnd
    by_cases he : e.id = id
    · rw [setActiveFirst, if_pos he]
      cases i with
      | zero => simp [he]
      | succ j =>
        simp only [List.get?_cons_succ]
        cases hr : rest.get? j with
        | none => simp
        | some x =>
          have hx : x ∈ rest := List.get?_mem hr
          have hxid : ¬(x.id = id) := by
            intro hxe
            exact hni (by rw [he, ← hxe]; exact List.mem_map_of_mem Equipment.id hx)
          simp [hxid]
    · rw [setActiveFirst, if_neg he]
      cases i with
      | zero => simp [he]
      | succ j =>
        simp only [List.get?_cons_succ]
        exact ih hnd' j

/-! ## Claim theorems -/

/-- C10: `SessionService.calculateAveragePerformance` applied to an empty
session list returns 0 (no division by zero, no NaN, no throw), and
`SessionService.calculateTotalHours` applied to an empty list returns 0. -/
theorem emptyList_aggregates_zero :
    SessionService.calculateAveragePerformance [] = 0 ∧
    SessionService.calculateTotalHours [] = 0 :=
  ⟨rfl, rfl⟩

/-- C6: for every non-empty session list,
`SessionService.calculateAveragePerformance` returns the arithmetic mean of
the ratings — the sum of the `performanceRating` values divided by the number
of sessions. -/
theorem calculateAveragePerformance_is_mean (sessions : List Session)
    (h : sessions ≠ []) :
    SessionService.calculateAveragePerformance sessions =
      (sessions.map Session.performanceRating).sum / (sessions.length : ℚ) := by
  unfold SessionService.calculateAveragePerformance
  rw [if_neg (fun hl => h (List.length_eq_zero.mp hl)),
    foldl_add_performanceRating, zero_add]

/-- C6 witness: on sessions with ratings `[3, 4, 5]` the average is `4`. -/
theorem calculateAveragePerformance_is_mean_witness :
    SessionService.calculateAveragePerformance
        [sampleSession 3, sampleSession 4, sampleSession 5] = 4 := by
  rw [calculateAveragePerformance_is_mean
    [sampleSession 3, sampleSession 4, sampleSession 5] (by simp)]
  norm_num [sampleSession]

/-- C4: when the backend answers a get-by-id request with an error (in
particular a 404), `SessionRepository.getById` — and hence
`SessionService.getSessionById` — returns `null` instead of propagating the
error; `EquipmentRepository.getById` behaves the same way. -/
theorem getById_swallows_404 (e : ApiError) (h : e.status = some 404) :
    SessionRepository.getById (Except.error e) = none ∧
    SessionService.getSessionById (Except.error e) = none ∧
    EquipmentRepository.getById (Except.error e) = none :=
  ⟨rfl, rfl, rfl⟩

/-- C4 witness: a concrete 404 answer yields `none`. -/
theorem getById_swallows_404_witness :
    SessionRepository.getById
        (Except.error { message := "Not found", detail := none, status := some 404 }) =
      none :=
  (getById_swallows_404 { message := "Not found", detail := none, status := some 404 } rfl).1

/-- C7: an entity built by a repository's `mapToEntity` keeps every wire field
value (camelCase field = snake_case field), and mapping it back into an
update payload preserves every field that has a key in the update DTO; the
spec-modelled `toUpdatePayload` writes each entity field back to its
snake_case key.  Stated for both the session and the equipment repository. -/
theorem mapToEntity_roundTrip (w : SessionResponse) (v : EquipmentResponse) :
    (SessionRepository.mapToEntity w).id = w.id ∧
    (SessionRepository.mapToEntity w).date = w.date ∧
    (SessionRepository.mapToEntity w).location = w.location ∧
    (SessionRepository.mapToEntity w).windSpeedMin = w.wind_speed_min ∧
    (SessionRepository.mapToEntity w).windSpeedMax = w.wind_speed_max ∧
    (SessionRepository.mapToEntity w).waveType = w.wave_type ∧
    (SessionRepository.mapToEntity w).waveDirection = w.wave_direction ∧
    (SessionRepository.mapToEntity w).hoursOnWater = w.hours_on_water ∧
    (SessionRepository.mapToEntity w).performanceRating = w.performance_rating ∧
    (SessionRepository.mapToEntity w).notes = w.notes ∧
    (SessionRepository.mapToEntity w).createdBy = w.created_by ∧
    (SessionRepository.mapToEntity w).createdAt = w.created_at ∧
    (SessionRepository.mapToEntity w).updatedAt = w.updated_at ∧
    (SessionRepository.mapToEntity w).toUpdatePayload.date = some w.date ∧
    (SessionRepository.mapToEntity w).toUpdatePayload.location = some w.location ∧
    (SessionRepository.mapToEntity w).toUpdatePayload.wind_speed_min = some w.wind_speed_min ∧
    (SessionRepository.mapToEntity w).toUpdatePayload.wind_speed_max = some w.wind_speed_max ∧
    (SessionRepository.mapToEntity w).toUpdatePayload.wave_type = some w.wave_type ∧
    (SessionRepository.mapToEntity w).toUpdatePayload.wave_direction = some w.wave_direction ∧
    (SessionRepository.mapToEntity w).toUpdatePayload.hours_on_water = some w.hours_on_water ∧
    (SessionRepository.mapToEntity w).toUpdatePayload.performance_rating = some w.performance_rating ∧
    (SessionRepository.mapToEntity w).toUpdatePayload.notes = w.notes ∧
    (EquipmentRepository.mapToEntity v).id = v.id ∧
    (EquipmentRepository.mapToEntity v).name = v.name ∧
    (EquipmentRepository.mapToEntity v).type = v.type ∧
    (EquipmentRepository.mapToEntity v).manufacturer = v.manufacturer ∧
    (EquipmentRepository.mapToEntity v).model = v.model ∧
    (EquipmentRepository.mapToEntity v).purchaseDate = v.purchase_date ∧
    (EquipmentRepository.mapToEntity v).notes = v.notes ∧
    (EquipmentRepository.mapToEntity v).active = v.active ∧
    (EquipmentRepository.mapToEntity v).wear = v.wear ∧
    (EquipmentRepository.mapToEntity v).ownerId = v.owner_id ∧
    (EquipmentRepository.mapToEntity v).createdAt = v.created_at ∧
    (EquipmentRepository.mapToEntity v).updatedAt = v.updated_at ∧
    (EquipmentRepository.mapToEntity v).ageInDays = v.age_in_days ∧
    (EquipmentRepository.mapToEntity v).needsReplacement = v.needs_replacement ∧
    (EquipmentRepository.mapToEntity v).toUpdatePayload.name = some v.name ∧
    (EquipmentRepository.mapToEntity v).toUpdatePayload.type = some v.type ∧
    (EquipmentRepository.mapToEntity v).toUpdatePayload.manufacturer = some v.manufacturer ∧
    (EquipmentRepository.mapToEntity v).toUpdatePayload.model = some v.model ∧
    (EquipmentRepository.mapToEntity v).toUpdatePayload.purchase_date = v.purchase_date ∧
    (EquipmentRepository.mapToEntity v).toUpdatePayload.notes = v.notes := by
  refine ⟨rfl, rfl, rfl, rfl, rfl, rfl, rfl, rfl, rfl, rfl, rfl, rfl, rfl, rfl, rfl,
    rfl, rfl, rfl, rfl, rfl, rfl, rfl, rfl, rfl, rfl, rfl, rfl, rfl, rfl, rfl, rfl,
    rfl, rfl, rfl, rfl, rfl, rfl, rfl, rfl, rfl, rfl, rfl⟩

/-- C1 counterexample: a payload with an empty location and
`wind_speed_min = 20 > 10 = wind_speed_max` is rejected with
"Location is required", not with "Minimum wind speed cannot exceed maximum" —
the location check runs first. -/
theorem createSession_windOrdering_counterexample :
    emptyLocationHighWind.wind_speed_min > emptyLocationHighWind.wind_speed_max ∧
    SessionService.createSession emptyLocationHighWind =
      Except.error "Location is required" ∧
    SessionService.createSession emptyLocationHighWind ≠
      Except.error "Minimum wind speed cannot exceed maximum" := by
  refine ⟨by decide, by decide, by decide⟩

/-- C1 (amended): every create payload with `wind_speed_min > wind_speed_max`
fails validation with a thrown error before the repository call — with the
message "Minimum wind speed cannot exceed maximum" whenever the two earlier
checks (non-blank location, non-negative wind speeds) pass — and every
payload accepted by create validation satisfies
`wind_speed_min ≤ wind_speed_max`. -/
theorem createSession_windOrdering (d : CreateSessionDTO) :
    (∀ c, SessionService.createSession d = Except.ok c →
      d.wind_speed_min ≤ d.wind_speed_max) ∧
    (d.wind_speed_max < d.wind_speed_min →
      ∃ msg, SessionService.createSession d = Except.error msg) ∧
    (d.wind_speed_max < d.wind_speed_min →
      (jsTrim d.location).length ≠ 0 →
      0 ≤ d.wind_speed_min → 0 ≤ d.wind_speed_max →
      SessionService.createSession d =
        Except.error "Minimum wind speed cannot exceed maximum") := by
  refine ⟨?_, ?_, ?_⟩
  · intro c hc
    obtain ⟨hv, -⟩ := (createSession_ok_iff d c).mp hc
    have h := (validateCreateSession_none_iff d).mp hv
    exact not_lt.mp h.2.2.1
  · intro hlt
    unfold SessionService.createSession
    cases hv : validateCreateSession d with
    | some msg => exact ⟨msg, rfl⟩
    | none =>
      have h := (validateCreateSession_none_iff d).mp hv
      exact absurd hlt h.2.2.1
  · intro hlt hloc hmin hmax
    rw [createSession_error_iff]
    unfold validateCreateSession
    rw [if_neg hloc, if_neg (by push_neg; exact ⟨hmin, hmax⟩), if_pos hlt]

/-- C1 witness: with a valid location, the payload `wind_speed_min = 20,
wind_speed_max = 10` is rejected with the wind-ordering message. -/
theorem createSession_windOrdering_witness :
    SessionService.createSession highWindCreate =
      Except.error "Minimum wind speed cannot exceed maximum" :=
  (createSession_windOrdering highWindCreate).2.2 (by decide) (by decide)
    (by decide) (by decide)

/-- C2 counterexample: the service performs no integrality check — the
non-integer rating 5/2 passes create validation (the payload is delegated to
the repository), falsifying "accept a performance_rating only if it is an
integer in [1,5]". -/
theorem performanceRating_integer_counterexample :
    SessionService.createSession halfRatingCreate =
      Except.ok (SessionRepoCall.create halfRatingCreate) ∧
    halfRatingCreate.performance_rating.den ≠ 1 := by
  refine ⟨by decide, by decide⟩

/-- C2 (amended): create and update accept a present `performance_rating`
exactly when `1 ≤ rating ≤ 5` (bounds only, no integrality check); in
particular the values 0 and 6 are rejected with a thrown error before any
repository call. -/
theorem performanceRating_bounds (d : CreateSessionDTO) (id : String)
    (u : UpdateSessionDTO) (r : ℚ)
    (hloc : (jsTrim d.location).length ≠ 0)
    (hmin : 0 ≤ d.wind_speed_min) (hmax : 0 ≤ d.wind_speed_max)
    (hord : d.wind_speed_min ≤ d.wind_speed_max)
    (hh1 : 0 < d.hours_on_water) (hh2 : d.hours_on_water ≤ 12)
    (hur : u.performance_rating = some r)
    (huw : checkUpdateWind u.wind_speed_min u.wind_speed_max = none)
    (huh : checkUpdateHours u.hours_on_water = none) :
    (SessionService.createSession d = Except.ok (SessionRepoCall.create d) ↔
      1 ≤ d.performance_rating ∧ d.performance_rating ≤ 5) ∧
    (SessionService.updateSession id u = Except.ok (SessionRepoCall.update id u) ↔
      1 ≤ r ∧ r ≤ 5) ∧
    SessionService.createSession { d with performance_rating := 0 } =
      Except.error "Performance rating must be between 1 and 5" ∧
    SessionService.createSession { d with performance_rating := 6 } =
      Except.error "Performance rating must be between 1 and 5" := by
  refine ⟨?_, ?_, ?_, ?_⟩
  · rw [createSession_ok_iff, validateCreateSession_none_iff]
    constructor
    · rintro ⟨⟨-, -, -, -, h5⟩, -⟩
      push_neg at h5
      exact h5
    · intro hr
      refine ⟨⟨hloc, ?_, not_lt.mpr hord, ?_, ?_⟩, rfl⟩
      · push_neg
        exact ⟨hmin, hmax⟩
      · push_neg
        exact ⟨hh1, hh2⟩
      · push_neg
        exact ⟨hr.1, hr.2⟩
  · rw [updateSession_ok_iff, validateUpdateSession_none_iff, hur,
      checkUpdateRating_none_iff]
    simp [huw, huh]
  · rw [createSession_error_iff]
    unfold validateCreateSession
    rw [if_neg hloc, if_neg (by push_neg; exact ⟨hmin, hmax⟩),
      if_neg (not_lt.mpr hord), if_neg (by push_neg; exact ⟨hh1, hh2⟩),
      if_pos (by norm_num)]
  · rw [createSession_error_iff]
    unfold validateCreateSession
    rw [if_neg hloc, if_neg (by push_neg; exact ⟨hmin, hmax⟩),
      if_neg (not_lt.mpr hord), if_neg (by push_neg; exact ⟨hh1, hh2⟩),
      if_pos (by norm_num)]

/-- C2 witness: with every other field valid, rating 6 is rejected on the
create path with the rating message. -/
theorem performanceRating_bounds_witness :
    SessionService.createSession { baseCreateDTO with performance_rating := 6 } =
      Except.error "Performance rating must be between 1 and 5" :=
  (performanceRating_bounds baseCreateDTO "s1" (onlyRatingUpdate 3) 3
    (by decide) (by decide) (by decide) (by decide) (by decide) (by decide)
    rfl rfl rfl).2.2.2

/-- C3: create and update accept a present `hours_on_water` exactly when
`0 < hours ≤ 12`; with every other field valid, the inputs 0 and 12.1 are
rejected with a thrown error before any repository call and the input 12 is
accepted (the payload is delegated to the repository). -/
theorem hoursOnWater_bounds (d : CreateSessionDTO) (id : String)
    (u : UpdateSessionDTO) (q : ℚ)
    (hloc : (jsTrim d.location).length ≠ 0)
    (hmin : 0 ≤ d.wind_speed_min) (hmax : 0 ≤ d.wind_speed_max)
    (hord : d.wind_speed_min ≤ d.wind_speed_max)
    (hr1 : 1 ≤ d.performance_rating) (hr5 : d.performance_rating ≤ 5)
    (hu : u.hours_on_water = some q)
    (huw : checkUpdateWind u.wind_speed_min u.wind_speed_max = none)
    (hur : checkUpdateRating u.performance_rating = none) :
    (SessionService.createSession d = Except.ok (SessionRepoCall.create d) ↔
      0 < d.hours_on_water ∧ d.hours_on_water ≤ 12) ∧
    (SessionService.updateSession id u = Except.ok (SessionRepoCall.update id u) ↔
      0 < q ∧ q ≤ 12) ∧
    SessionService.createSession { d with hours_on_water := 0 } =
      Except.error "Hours on water must be between 0 and 12" ∧
    SessionService.createSession { d with hours_on_water := 12.1 } =
      Except.error "Hours on water must be between 0 and 12" ∧
    SessionService.createSession { d with hours_on_water := 12 } =
      Except.ok (SessionRepoCall.create { d with hours_on_water := 12 }) := by
  refine ⟨?_, ?_, ?_, ?_, ?_⟩
  · rw [createSession_ok_iff, validateCreateSession_none_iff]
    constructor
    · rintro ⟨⟨-, -, -, h4, -⟩, -⟩
      push_neg at h4
      exact h4
    · intro hh
      refine ⟨⟨hloc, ?_, not_lt.mpr hord, ?_, ?_⟩, rfl⟩
      · push_neg
        exact ⟨hmin, hmax⟩
      · push_neg
        exact ⟨hh.1, hh.2⟩
      · push_neg
        exact ⟨hr1, hr5⟩
  · rw [updateSession_ok_iff, validateUpdateSession_none_iff, hu,
      checkUpdateHours_none_iff]
    simp [huw, hur]
  · rw [createSession_error_iff]
    unfold validateCreateSession
    rw [if_neg hloc, if_neg (by push_neg; exact ⟨hmin, hmax⟩),
      if_neg (not_lt.mpr hord), if_pos (by norm_num)]
  · rw [createSession_error_iff]
    unfold validateCreateSession
    rw [if_neg hloc, if_neg (by push_neg; exact ⟨hmin, hmax⟩),
      if_neg (not_lt.mpr hord), if_pos (by norm_num)]
  · rw [createSession_ok_iff, validateCreateSession_none_iff]
    refine ⟨⟨hloc, ?_, not_lt.mpr hord, by norm_num, ?_⟩, rfl⟩
    · push_neg
      exact ⟨hmin, hmax⟩
    · push_neg
      exact ⟨hr1, hr5⟩

/-- C3 witness: with every other field valid, hours 12 is accepted on the
create path. -/
theorem hoursOnWater_bounds_witness :
    SessionService.createSession { baseCreateDTO with hours_on_water := 12 } =
      Except.ok (SessionRepoCall.create { baseCreateDTO with hours_on_water := 12 }) :=
  (hoursOnWater_bounds baseCreateDTO "s1" (onlyHoursUpdate 2) 2
    (by decide) (by decide) (by decide) (by decide) (by decide) (by decide)
    rfl rfl rfl).2.2.2.2

/-- C5: `SessionService.createEquipmentSettings` delegates to the repository
exactly when every tension parameter present in the payload lies in `[0, 10]`
and a present `mast_rake` lies in `[-5, 30]`; otherwise it throws
synchronously (before any repository call). -/
theorem createEquipmentSettings_bounds (sid : String)
    (d : CreateEquipmentSettingsDTO) :
    SessionService.createEquipmentSettings sid d =
        Except.ok (SessionRepoCall.createSettings sid d) ↔
      ((∀ x, d.forestay_tension = some x → 0 ≤ x ∧ x ≤ 10) ∧
       (∀ x, d.shroud_tension = some x → 0 ≤ x ∧ x ≤ 10) ∧
       (∀ x, d.main_tension = some x → 0 ≤ x ∧ x ≤ 10) ∧
       (∀ x, d.cap_tension = some x → 0 ≤ x ∧ x ≤ 10) ∧
       (∀ x, d.lowers_scale = some x → 0 ≤ x ∧ x ≤ 10) ∧
       (∀ x, d.mains_scale = some x → 0 ≤ x ∧ x ≤ 10) ∧
       (∀ x, d.cunningham = some x → 0 ≤ x ∧ x ≤ 10) ∧
       (∀ x, d.outhaul = some x → 0 ≤ x ∧ x ≤ 10) ∧
       (∀ x, d.vang = some x → 0 ≤ x ∧ x ≤ 10) ∧
       (∀ x, d.mast_rake = some x → -5 ≤ x ∧ x ≤ 30)) := by
  rw [createEquipmentSettings_ok_iff]
  unfold validateSettings
  rw [firstErr_none_iff]
  simp [List.forall_mem_cons, checkTension_none_iff, checkMastRake_none_iff]

/-- C9: the two weather predicates are mutually exclusive, so
`getSessionsByCondition` with 'heavy', 'light' and 'medium' partitions any
session list — every session of the input belongs to exactly one of the three
result lists. -/
theorem getSessionsByCondition_partition (sessions : List Session) (s : Session)
    (hs : s ∈ sessions) :
    ¬(s.isHeavyWeather = true ∧ s.isLightWeather = true) ∧
    ((s ∈ SessionService.getSessionsByCondition sessions Condition.heavy ∧
      s ∉ SessionService.getSessionsByCondition sessions Condition.light ∧
      s ∉ SessionService.getSessionsByCondition sessions Condition.medium) ∨
     (s ∉ SessionService.getSessionsByCondition sessions Condition.heavy ∧
      s ∈ SessionService.getSessionsByCondition sessions Condition.light ∧
      s ∉ SessionService.getSessionsByCondition sessions Condition.medium) ∨
     (s ∉ SessionService.getSessionsByCondition sessions Condition.heavy ∧
      s ∉ SessionService.getSessionsByCondition sessions Condition.light ∧
      s ∈ SessionService.getSessionsByCondition sessions Condition.medium)) := by
  refine ⟨not_isHeavyWeather_and_isLightWeather s, ?_⟩
  by_cases hh : s.isHeavyWeather = true
  · have hl : ¬(s.isLightWeather = true) :=
      fun hl => not_isHeavyWeather_and_isLightWeather s ⟨hh, hl⟩
    exact Or.inl (by
      simp [SessionService.getSessionsByCondition, List.mem_filter, hs, hh,
        Bool.eq_false_iff.mpr hl])
  · by_cases hl : s.isLightWeather = true
    · exact Or.inr (Or.inl (by
        simp [SessionService.getSessionsByCondition, List.mem_filter, hs, hl,
          Bool.eq_false_iff.mpr hh]))
    · exact Or.inr (Or.inr (by
        simp [SessionService.getSessionsByCondition, List.mem_filter, hs,
          Bool.eq_false_iff.mpr hh, Bool.eq_false_iff.mpr hl]))

/-- C9 witness: a concrete session in a one-element list satisfies the
exclusivity conjunct. -/
theorem getSessionsByCondition_partition_witness :
    sampleSession 3 ∈ [sampleSession 3] ∧
    ¬((sampleSession 3).isHeavyWeather = true ∧
      (sampleSession 3).isLightWeather = true) :=
  ⟨by decide, (getSessionsByCondition_partition [sampleSession 3]
    (sampleSession 3) (by decide)).1⟩

/-- C8: on an equipment list with distinct ids, the `useEquipment` hook's
retire-then-reactivate local patches set the matching entry's `active` field
to `false` and then to `true`, change no other field of that entry, and leave
every other entry unchanged (pointwise, position by position). -/
theorem retire_then_reactivate (l : List Equipment) (id : String)
    (hnd : (l.map Equipment.id).Nodup) (i : ℕ) :
    (retireEquipmentLocal l id).get? i =
      (l.get? i).map (fun e => if e.id = id then { e with active := false } else e) ∧
    (reactivateEquipmentLocal (retireEquipmentLocal l id) id).get? i =
      (l.get? i).map (fun e => if e.id = id then { e with active := true } else e) := by
  have h1 := setActiveFirst_get? id false l hnd i
  have hnd2 : ((retireEquipmentLocal l id).map Equipment.id).Nodup := by
    rw [retireEquipmentLocal, setActiveFirst_map_id]
    exact hnd
  refine ⟨h1, ?_⟩
  rw [reactivateEquipmentLocal, setActiveFirst_get? id true _ hnd2 i,
    retireEquipmentLocal, setActiveFirst_get? id false l hnd i]
  cases l.get? i with
  | none => rfl
  | some e =>
    by_cases he : e.id = id <;> simp [he]

/-- C8 witness: retiring then reactivating `"eq-1"` in a concrete two-element
list yields `active = true` on the first entry with all other fields intact. -/
theorem retire_then_reactivate_witness :
    ([sampleEquipment "eq-1", sampleEquipment "eq-2"].map Equipment.id).Nodup ∧
    (reactivateEquipmentLocal
        (retireEquipmentLocal [sampleEquipment "eq-1", sampleEquipment "eq-2"] "eq-1")
        "eq-1").get? 0 =
      some { sampleEquipment "eq-1" with active := true } := by
  refine ⟨by decide, ?_⟩
  rw [(retire_then_reactivate [sampleEquipment "eq-1", sampleEquipment "eq-2"]
    "eq-1" (by decide) 0).2]
  decide

end Sailing
